import Mathlib

/-!
Verification of `bot/exts/evergreen/avatar_modification/avatar_modify.py`
(the avatar-modification command cog of the sir-lancebot repository).

Python strings are modelled as lists of Unicode codepoints (`List Nat`);
bytes are irrelevant to the verified properties and are left abstract.
Side-effecting command handlers are modelled as pure functions from their
external inputs (the outcome of the platform member fetch, the outcome of
the URL fetch, the behaviour of an invoked sibling command) to a trace of
the observable events they produce (messages sent through the output sink,
calls submitted to the executor) together with their exceptional status.
-/

namespace AvatarModify

/-- Codepoints of a Lean string literal; used to write concrete Python
string values in the development. -/
def str (s : String) : List Nat := s.toList.map Char.toNat

/-- The codepoints of Python `valid_filename_chars`, the string
`"-_. " + string.ascii_letters + string.digits`: hyphen, underscore, dot,
space, the lowercase then uppercase ASCII letters, then the digits. -/
def valid_filename_chars : List Nat :=
  [45, 95, 46, 32]
    ++ (List.range 26).map (fun i => 97 + i)
    ++ (List.range 26).map (fun i => 65 + i)
    ++ (List.range 10).map (fun i => 48 + i)

/-- Python `file_name.replace(" ", "_")`: every SPACE (U+0020) codepoint is
replaced by an underscore (U+005F); a single-character pattern, so the
substring replacement is exactly a character map. -/
def replace_spaces (s : List Nat) : List Nat :=
  s.map (fun c => if c = 32 then 95 else c)

/-- Python `.encode("ASCII", "ignore").decode()`: codepoints representable
in 7-bit ASCII are kept, every other codepoint is dropped. -/
def encode_ascii_ignore (s : List Nat) : List Nat :=
  s.filter (fun c => decide (c < 128))

/-- The codepoints of the `".png"` suffix appended by `FILENAME_STRING`. -/
def png_suffix : List Nat := [46, 112, 110, 103]

/--
Embedding of `file_safe_name(effect, display_name)`.

The call `unicodedata.normalize("NFKD", file_name)` is an external library
function over the whole Unicode character database, so the embedding takes
the per-character compatibility decomposition as a parameter
`nfkd : Nat → List Nat` and applies it characterwise. (Real NFKD also
canonically reorders combining marks; the subsequent steps of
`file_safe_name` are character filters, so the reordering can change only
the relative order of surviving characters, and none of the theorems below
depend on the order of characters produced from non-ASCII input.)

Steps, exactly as in the source:
1. `FILENAME_STRING.format(effect=..., author=...)` builds
   `effect ++ "_" ++ display_name ++ ".png"`;
2. spaces are replaced by underscores;
3. the result is NFKD-normalized and re-encoded as ASCII with errors
   ignored (non-ASCII codepoints vanish);
4. characters outside `valid_filename_chars` are removed.
-/
def file_safe_name (nfkd : Nat → List Nat) (effect display_name : List Nat) :
    List Nat :=
  let file_name := effect ++ [95] ++ display_name ++ png_suffix
  let file_name := replace_spaces file_name
  let cleaned_filename :=
    encode_ascii_ignore (file_name.flatMap nfkd)
  cleaned_filename.filter (fun c => decide (c ∈ valid_filename_chars))

/-- NFKD compatibility decomposition restricted to the codepoints this
development evaluates it at: ASCII codepoints are NFKD-invariant, and
U+00A0 NO-BREAK SPACE decomposes to U+0020 SPACE. (Codepoints outside this
set are never passed to this table by any theorem below; the universally
quantified theorems are parametric in the decomposition instead.) -/
def nfkd_sample (c : Nat) : List Nat :=
  if c < 128 then [c] else if c = 160 then [32] else [c]

/-- The character class `[A-Za-z0-9._-]` of the pattern
`^[A-Za-z0-9._-]*\.png$` stated by the spec (letters, digits, dot,
underscore, hyphen; note: NO space). -/
def spec_pattern_char (c : Nat) : Bool :=
  (65 ≤ c && c ≤ 90) || (97 ≤ c && c ≤ 122) || (48 ≤ c && c ≤ 57)
    || c = 46 || c = 95 || c = 45

/-- Whether a codepoint string matches the pattern `^[A-Za-z0-9._-]*\.png$`
stated by the spec: since every character of the suffix `.png` is itself in
the class, a string matches exactly when all of its characters are in the
class and it ends with `.png`. -/
def matches_spec_pattern (s : List Nat) : Bool :=
  s.all spec_pattern_char && decide (png_suffix <:+ s)

/-- All characters drawn from `valid_filename_chars` (letters, digits, dot,
underscore, hyphen, space): the "already ASCII-safe" display names of the
spec. -/
def ascii_safe (s : List Nat) : Bool :=
  s.all (fun c => decide (c ∈ valid_filename_chars))

/-- The effect tag passed to `file_safe_name` by the 8bitify command. -/
def eightbit_tag : List Nat := str "eightbit_avatar"

/-- The effect tag passed to `file_safe_name` by the easterify command. -/
def easterified_tag : List Nat := str "easterified_avatar"

/-- The effect tag passed to `file_safe_name` by the pride commands. -/
def pride_tag : List Nat := str "pride_avatar"

/-- The effect tag passed to `file_safe_name` by the spookyavatar command. -/
def spooky_tag : List Nat := str "spooky_avatar"

/-- A guild member record as the commands use it: only the display name is
observable in the verified properties (avatar bytes stay abstract). -/
structure Member where
  member_id : Nat
  display_name : List Nat
deriving DecidableEq, Repr

/-- Outcome of awaiting `self.bot.get_guild(Client.guild).fetch_member(id)`:
either a member record, or one of the two exception classes the source
handles. `discord.errors.NotFound` is a subclass of `discord.HTTPException`;
the source catches `NotFound` first and the remaining HTTP faults with the
second handler, so the raised exceptions split into exactly these two
constructors. -/
inductive FetchRaw where
  | member (m : Member)
  | notFoundExc
  | httpExc
deriving DecidableEq, Repr

/-- Embedding of `_fetch_member`: a successful fetch returns the member;
the `except discord.errors.NotFound` handler logs at debug level and
returns `None`; the `except discord.HTTPException` handler logs the
exception and returns `None`. No exception escapes to the caller. -/
def fetch_member : FetchRaw → Option Member
  | FetchRaw.member m => some m
  | FetchRaw.notFoundExc => none
  | FetchRaw.httpExc => none

/-- The `commands.errors.BadArgument` exceptions the URL sub-form raises:
`BadArgument("Cannot connect to provided URL!")` for
`client_exceptions.ClientConnectorError` and `BadArgument("Invalid URL!")`
for `client_exceptions.InvalidURL`. -/
inductive BadArg where
  | cannotConnect
  | invalidURL
deriving DecidableEq, Repr

/-- The user-facing messages the eightbit and pride command handlers send
through `ctx.send`. The literal texts in the source are, in order: the
cross-mark "Could not get member info." message, the unknown-flag message
"I don\x27t have that flag!", the "Bad response from provided URL!"
message, the eightbit result embed, and the pride result embed (whose
description interpolates the lowercased option and whose image references
the sanitized filename). -/
inductive UserMsg where
  | memberFail
  | noFlag
  | badResponse
  | eightbitEmbed (file_name : List Nat)
  | prideEmbed (opt : List Nat) (file_name : List Nat)
  | badArgMsg (b : BadArg)
deriving DecidableEq, Repr

/-- A call submitted to the shared executor through `in_executor`
(`PfpEffects.apply_effect` with the given effect-specific arguments). -/
inductive OffloadCall where
  | eightbit (file_name : List Nat)
  | pride (file_name : List Nat) (pixels : Int) (flag : List Nat)
deriving DecidableEq, Repr

/-- An observable event of the eightbit / pride command handlers. -/
inductive Ev where
  | send (m : UserMsg)
  | offload (c : OffloadCall)
deriving DecidableEq, Repr

/-- Number of executor submissions in a trace (calls reaching the offload
gateway). -/
def offload_count (evs : List Ev) : Nat :=
  (evs.filter fun e => match e with
    | Ev.offload _ => true
    | _ => false).length

/-- Number of user-facing sends in a trace. -/
def send_count (evs : List Ev) : Nat :=
  (evs.filter fun e => match e with
    | Ev.send _ => true
    | _ => false).length

/-- Embedding of the `8bitify` command handler: resolve the invoking
member through `_fetch_member`; on `None` send the member-failure message
and return; otherwise read the avatar, build the sanitized filename,
offload the effect computation, and send the result embed. -/
def eightbit_command (nfkd : Nat → List Nat) (r : FetchRaw) : List Ev :=
  match fetch_member r with
  | none => [Ev.send UserMsg.memberFail]
  | some m =>
      let file_name := file_safe_name nfkd eightbit_tag m.display_name
      [Ev.offload (OffloadCall.eightbit file_name),
       Ev.send (UserMsg.eightbitEmbed file_name)]

/-- Python `str.lower` on a single codepoint, restricted to the ASCII
range the flag-option strings of this cog live in: uppercase ASCII letters
map to their lowercase forms, every other modelled codepoint is fixed. -/
def py_lower_char (c : Nat) : Nat :=
  if 65 ≤ c ∧ c ≤ 90 then c + 32 else c

/-- Python `option.lower()` applied characterwise. -/
def py_lower (s : List Nat) : List Nat := s.map py_lower_char

/-- Python `dict.get(key)` on an association list: the first binding of the
key, or `none`. The commands apply it to the `GENDER_OPTIONS` mapping. -/
def dict_get (opts : List (List Nat × List Nat)) (k : List Nat) :
    Option (List Nat) :=
  match opts with
  | [] => none
  | (k2, v) :: rest => if k2 = k then some v else dict_get rest k

/-- Modelled from the spec: the `GENDER_OPTIONS` mapping is loaded at
startup from the configuration resource `bot/resources/pride/
gender_options.json`, which is not part of the source under verification;
per the spec it is a static mapping from human flag names to flag asset
identifiers, with lgbt the default option. This sample carries the one
binding the concrete witnesses need. -/
def sample_gender_options : List (List Nat × List Nat) :=
  [(str "lgbt", str "lgbt")]

/-- Embedding of the static helper `send_pride_image(ctx, image_bytes,
pixels, flag, option)`: build the sanitized filename from the display name
of the invoking author, offload `PfpEffects.pridify_effect`, then send the
embed (whose description names the option and whose image references the
filename). -/
def send_pride_image (nfkd : Nat → List Nat) (author_name : List Nat)
    (pixels : Int) (flag opt : List Nat) : List Ev :=
  let file_name := file_safe_name nfkd pride_tag author_name
  [Ev.offload (OffloadCall.pride file_name pixels flag),
   Ev.send (UserMsg.prideEmbed opt file_name)]

/-- A finished command invocation: its event trace and the exception it
raised out of the handler, if any. -/
structure CmdRun where
  events : List Ev
  raised : Option BadArg
deriving DecidableEq, Repr

/-- Embedding of the `prideavatar` command handler. Inputs beyond the user
arguments: the outcome of the member fetch and the flag mapping. In source
order: lowercase the option, clamp `pixels` with `max(0, min(512, pixels))`,
look the option up in `GENDER_OPTIONS` and abort with the unknown-flag
message when absent, resolve the member and abort with the member-failure
message on `None`, then read the avatar and call `send_pride_image`. The
handler never raises. -/
def prideavatar (nfkd : Nat → List Nat)
    (opts : List (List Nat × List Nat)) (r : FetchRaw)
    (author_name opt : List Nat) (pixels : Int) : CmdRun :=
  let opt := py_lower opt
  let pixels := max 0 (min 512 pixels)
  match dict_get opts opt with
  | none => ⟨[Ev.send UserMsg.noFlag], none⟩
  | some flag =>
      match fetch_member r with
      | none => ⟨[Ev.send UserMsg.memberFail], none⟩
      | some _ => ⟨send_pride_image nfkd author_name pixels flag opt, none⟩

/-- Outcome of `self.bot.http_session.get(url)` in the URL sub-form:
a response with some status code (whose body can be read), or one of the
two aiohttp exception classes the source handles. -/
inductive UrlOutcome where
  | response (status : Nat)
  | connectError
  | invalidURL
deriving DecidableEq, Repr

/-- Embedding of the `image` sub-command handler (URL sub-form of the
pride command). In source order: lowercase the option, clamp `pixels`,
look up the flag and abort with the unknown-flag message when absent, then
fetch the URL: a non-200 status sends the bad-response message and
returns; `ClientConnectorError` raises `BadArgument` naming the connection
problem; `InvalidURL` raises `BadArgument` naming the malformed URL;
otherwise the body is read and `send_pride_image` runs. -/
def image (nfkd : Nat → List Nat) (opts : List (List Nat × List Nat))
    (u : UrlOutcome) (author_name opt : List Nat) (pixels : Int) : CmdRun :=
  let opt := py_lower opt
  let pixels := max 0 (min 512 pixels)
  match dict_get opts opt with
  | none => ⟨[Ev.send UserMsg.noFlag], none⟩
  | some flag =>
      match u with
      | UrlOutcome.response status =>
          if status ≠ 200 then ⟨[Ev.send UserMsg.badResponse], none⟩
          else ⟨send_pride_image nfkd author_name pixels flag opt, none⟩
      | UrlOutcome.connectError => ⟨[], some BadArg.cannotConnect⟩
      | UrlOutcome.invalidURL => ⟨[], some BadArg.invalidURL⟩

/-- Modelled from the spec: the propagation policy resolves every fault at
the command-handler boundary into a single user-facing message. The
framework-side error handler that receives a raised
`commands.errors.BadArgument` and sends its text to the user is repository
code outside the source under verification; per the spec it turns the
raised fault into one user-visible message naming the problem and nothing
propagates further. -/
def resolve_at_boundary (run : CmdRun) : List Ev × Option BadArg :=
  match run.raised with
  | none => (run.events, none)
  | some b => (run.events ++ [Ev.send (UserMsg.badArgMsg b)], none)

/-- Which function the mutable attribute `ctx.send` currently refers to:
the original output function of the context, or the capturing stand-in
`send` defined inside `avatareasterify`. -/
inductive SendSlot where
  | real
  | fake
deriving DecidableEq, Repr

/-- Embedding of the nested stand-in `send(*args, **kwargs)`: it does not
deliver anything; it returns its first positional argument when one is
given, and `None` (here `none`) when called with no positional arguments.
Keyword arguments are ignored by the body and omitted from the model. -/
def send (args : List (List Nat)) : Option (List Nat) :=
  args.head?

/-- An egg artifact: the image object `eggdecorate` returns on success
(opaque; only its identity matters to the trace). -/
structure EggArt where
  art_id : Nat
deriving DecidableEq, Repr

/-- A non-`None` value returned by `ctx.invoke` of `eggdecorate`: either
an image artifact (for which `isinstance(egg, str)` is false) or a string
(the captured error text). -/
inductive EggRet where
  | art (a : EggArt)
  | text (s : List Nat)
deriving DecidableEq, Repr

/-- Behaviour of `await ctx.invoke(self.bot.get_command("eggdecorate"),
*colours)`: the invocation either returns a value (possibly `None`) or
raises. The `eggdecorate` command is a different cog, outside the source
under verification, so its result is an input of the model. -/
inductive DelegResult where
  | ret (v : Option EggRet)
  | fault
deriving DecidableEq, Repr

/-- The deliveries the easterify handler makes through the ORIGINAL output
function (the saved `send_message` reference or an unreplaced `ctx.send`):
the member-failure message, the relay of a captured error text, or the
final easterified-avatar embed referencing the sanitized filename. -/
inductive EasterOut where
  | memberFail
  | relay (text : List Nat)
  | finalEmbed (file_name : List Nat)
deriving DecidableEq, Repr

/-- An observable event of the easterify handler: a delivery through the
original output function, a call that reached the capturing stand-in (its
positional arguments recorded; nothing is delivered), an assignment to the
`ctx.send` attribute, or an executor submission of the easterify effect
with its optional egg argument. -/
inductive EEv where
  | realSend (m : EasterOut)
  | fakeSend (args : List (List Nat))
  | setSend (slot : SendSlot)
  | offloadEaster (file_name : List Nat) (egg : Option EggArt)
deriving DecidableEq, Repr

/-- The `ctx.send` calls performed by the delegated `eggdecorate`
invocation, routed through whatever `ctx.send` currently refers to: each
call is one element of `emits` (its positional-argument list). Under the
stand-in the call is captured; under the original function it would be a
real delivery of the first argument. -/
def deleg_sends (slot : SendSlot) (emits : List (List (List Nat))) :
    List EEv :=
  emits.map (fun args =>
    match slot with
    | SendSlot.fake => EEv.fakeSend args
    | SendSlot.real =>
        EEv.realSend (EasterOut.relay (args.headD [])))

/-- Number of deliveries through the original output function in an
easterify trace. -/
def real_send_count (evs : List EEv) : Nat :=
  (evs.filter fun e => match e with
    | EEv.realSend _ => true
    | _ => false).length

/-- Number of executor submissions in an easterify trace. -/
def easter_offload_count (evs : List EEv) : Nat :=
  (evs.filter fun e => match e with
    | EEv.offloadEaster _ _ => true
    | _ => false).length

/-- A finished `avatareasterify` invocation: its event trace, the function
`ctx.send` refers to when control leaves the handler, and whether the
handler exited by propagating a fault of the delegated invocation. -/
structure EasterRun where
  events : List EEv
  finalSend : SendSlot
  faulted : Bool
deriving DecidableEq, Repr

/-- Embedding of the `avatareasterify` command handler. In source order:
resolve the member and abort with the member-failure message on `None`;
set `egg = None`; when `colours` is non-empty, save `send_message =
ctx.send`, assign the stand-in to `ctx.send`, invoke `eggdecorate` (whose
sends go through the stand-in and whose result or fault is `dres`); when
the result is a string, deliver it through the saved `send_message` and
return — without reassigning `ctx.send`; otherwise reassign `ctx.send =
send_message`; finally read the avatar, build the sanitized filename,
offload the easterify effect with the egg, and send the result embed. A
fault of the delegated invocation propagates with `ctx.send` still the
stand-in. -/
def avatareasterify (nfkd : Nat → List Nat) (r : FetchRaw)
    (colours : List Nat) (emits : List (List (List Nat)))
    (dres : DelegResult) : EasterRun :=
  match fetch_member r with
  | none => ⟨[EEv.realSend EasterOut.memberFail], SendSlot.real, false⟩
  | some m =>
      let file_name := file_safe_name nfkd easterified_tag m.display_name
      if colours.isEmpty then
        ⟨[EEv.offloadEaster file_name none,
          EEv.realSend (EasterOut.finalEmbed file_name)],
         SendSlot.real, false⟩
      else
        let pre := EEv.setSend SendSlot.fake ::
          deleg_sends SendSlot.fake emits
        match dres with
        | DelegResult.fault => ⟨pre, SendSlot.fake, true⟩
        | DelegResult.ret (some (EggRet.text s)) =>
            ⟨pre ++ [EEv.realSend (EasterOut.relay s)], SendSlot.fake, false⟩
        | DelegResult.ret (some (EggRet.art a)) =>
            ⟨pre ++ [EEv.setSend SendSlot.real,
                     EEv.offloadEaster file_name (some a),
                     EEv.realSend (EasterOut.finalEmbed file_name)],
             SendSlot.real, false⟩
        | DelegResult.ret none =>
            ⟨pre ++ [EEv.setSend SendSlot.real,
                     EEv.offloadEaster file_name none,
                     EEv.realSend (EasterOut.finalEmbed file_name)],
             SendSlot.real, false⟩

theorem valid_chars_lt_128 : ∀ c ∈ valid_filename_chars, c < 128 := by
  decide

/-- Characterwise NFKD, ASCII re-encoding and the valid-character filter
leave a string fixed when every character is already a valid filename
character, provided the decomposition fixes ASCII codepoints. -/
theorem clean_fixed (nfkd : Nat → List Nat)
    (hA : ∀ c, c < 128 → nfkd c = [c]) (s : List Nat)
    (hs : ∀ c ∈ s, c ∈ valid_filename_chars) :
    (encode_ascii_ignore (s.flatMap nfkd)).filter
      (fun c => decide (c ∈ valid_filename_chars)) = s := by
  induction s with
  | nil => rfl
  | cons c t ih =>
      have hc : c ∈ valid_filename_chars := hs c (List.mem_cons_self c t)
      have hlt : c < 128 := valid_chars_lt_128 c hc
      have ht : ∀ x ∈ t, x ∈ valid_filename_chars :=
        fun x hx => hs x (List.mem_cons_of_mem c hx)
      simp only [List.flatMap_cons, hA c hlt, encode_ascii_ignore,
        List.filter_append, List.filter_cons]
      simp only [encode_ascii_ignore, List.filter] at ih
      simp [hlt, hc, ih ht]

/-- `replace_spaces` distributes over append. -/
theorem replace_spaces_append (a b : List Nat) :
    replace_spaces (a ++ b) = replace_spaces a ++ replace_spaces b :=
  List.map_append _ a b

/-- The output characters of `replace_spaces` on a valid-character string
are valid. -/
theorem replace_spaces_valid (s : List Nat)
    (hs : ∀ c ∈ s, c ∈ valid_filename_chars) :
    ∀ c ∈ replace_spaces s, c ∈ valid_filename_chars := by
  intro c hc
  rcases List.mem_map.1 hc with ⟨x, hx, hfx⟩
  by_cases h32 : x = 32
  · subst h32
    simp at hfx
    subst hfx
    decide
  · have : (if x = 32 then 95 else x) = x := if_neg h32
    rw [this] at hfx
    exact hfx ▸ hs x hx

/--
C2: the spec states that for display names consisting only of non-ASCII
characters (and any effect tag) the sanitized filename matches
`^[A-Za-z0-9._-]*\.png$` — ASCII-only, never containing a space. This is
FALSE of the source: `file_safe_name` replaces spaces BEFORE NFKD
normalization, and its valid-character set includes the space, so a
display name made of the single non-ASCII codepoint U+00A0 NO-BREAK SPACE
(whose NFKD compatibility decomposition is the ASCII space U+0020)
produces `"pride_avatar_ .png"` — a filename containing a space, outside
the stated pattern.
-/
theorem c2_counterexample :
    ([160].all fun c => decide (128 ≤ c)) = true ∧
    32 ∈ file_safe_name nfkd_sample pride_tag [160] ∧
    matches_spec_pattern (file_safe_name nfkd_sample pride_tag [160])
      = false ∧
    file_safe_name nfkd_sample pride_tag [160]
      = str "pride_avatar_" ++ [32] ++ png_suffix := by
  decide

/--
C2 (amended): for every effect tag and display name, the sanitized
filename ends in `.png` and every character of it is ASCII and drawn from
letters, digits, dot, underscore, hyphen, OR SPACE (i.e. it matches
`^[A-Za-z0-9._ -]*\.png$`); a space can survive when the NFKD
decomposition of a non-ASCII character yields one. Stated for every
per-character decomposition that fixes ASCII codepoints, as real NFKD
does.
-/
theorem c2_amended_thm (nfkd : Nat → List Nat)
    (hA : ∀ c, c < 128 → nfkd c = [c]) (effect display_name : List Nat) :
    (∃ pre, file_safe_name nfkd effect display_name = pre ++ png_suffix) ∧
    ∀ c ∈ file_safe_name nfkd effect display_name,
      c ∈ valid_filename_chars ∧ c < 128 := by
  constructor
  · refine ⟨(encode_ascii_ignore
        ((replace_spaces (effect ++ [95] ++ display_name)).flatMap
          nfkd)).filter (fun c => decide (c ∈ valid_filename_chars)), ?_⟩
    have hpng : replace_spaces png_suffix = png_suffix := by decide
    have h1 : replace_spaces (effect ++ [95] ++ display_name ++ png_suffix)
        = replace_spaces (effect ++ [95] ++ display_name) ++ png_suffix := by
      rw [replace_spaces_append, hpng]
    have h2 : (encode_ascii_ignore (png_suffix.flatMap nfkd)).filter
        (fun c => decide (c ∈ valid_filename_chars)) = png_suffix :=
      clean_fixed nfkd hA png_suffix (by decide)
    simp only [file_safe_name, h1, List.flatMap_append, encode_ascii_ignore,
      List.filter_append]
    simp only [encode_ascii_ignore] at h2
    rw [h2]
  · intro c hc
    simp only [file_safe_name, encode_ascii_ignore, List.mem_filter,
      decide_eq_true_eq] at hc
    exact ⟨hc.2, hc.1.2⟩

/-- C2 witness: the amended theorem at the concrete decomposition table
and the non-ASCII display name U+00A0. -/
theorem c2_amended_witness :
    (∃ pre, file_safe_name nfkd_sample pride_tag [160] = pre ++ png_suffix) ∧
    ∀ c ∈ file_safe_name nfkd_sample pride_tag [160],
      c ∈ valid_filename_chars ∧ c < 128 :=
  c2_amended_thm nfkd_sample
    (fun c hc => by simp [nfkd_sample, hc]) pride_tag [160]

/--
C8: for every effect tag and display name whose characters all come from
letters, digits, dot, underscore, hyphen and space, `file_safe_name`
returns exactly the formatted `"{effect}_{display_name}.png"` with every
space replaced by an underscore. Stated for every per-character
decomposition fixing ASCII codepoints, as real NFKD does.
-/
theorem c8_ascii_safe_thm (nfkd : Nat → List Nat)
    (hA : ∀ c, c < 128 → nfkd c = [c]) (effect display_name : List Nat)
    (he : ascii_safe effect = true) (hn : ascii_safe display_name = true) :
    file_safe_name nfkd effect display_name
      = replace_spaces (effect ++ [95] ++ display_name ++ png_suffix) := by
  have hall : ∀ c ∈ effect ++ [95] ++ display_name ++ png_suffix,
      c ∈ valid_filename_chars := by
    intro c hc
    simp only [List.mem_append] at hc
    rcases hc with ((hc | hc) | hc) | hc
    · exact of_decide_eq_true (List.all_eq_true.1 he c hc)
    · simp at hc
      subst hc
      decide
    · exact of_decide_eq_true (List.all_eq_true.1 hn c hc)
    · have hp : ∀ x ∈ png_suffix, x ∈ valid_filename_chars := by decide
      exact hp c hc
  exact clean_fixed nfkd hA _ (replace_spaces_valid _ hall)

/-- C8 witness: the theorem at a concrete effect tag and a concrete
ASCII-safe display name containing a space, evaluated. -/
theorem c8_witness :
    ascii_safe spooky_tag = true ∧
    ascii_safe (str "Ada Lovelace") = true ∧
    file_safe_name nfkd_sample spooky_tag (str "Ada Lovelace")
      = replace_spaces (spooky_tag ++ [95] ++ str "Ada Lovelace"
          ++ png_suffix) ∧
    replace_spaces (spooky_tag ++ [95] ++ str "Ada Lovelace" ++ png_suffix)
      = str "spooky_avatar_Ada_Lovelace.png" :=
  ⟨by decide, by decide,
   c8_ascii_safe_thm nfkd_sample (fun c hc => by simp [nfkd_sample, hc])
     spooky_tag (str "Ada Lovelace") (by decide) (by decide),
   by decide⟩

/--
C3: `_fetch_member` maps the platform not-found report to `None` and any
other HTTP/platform fault to `None` as well — by its shape it returns a
value (never re-raises either exception class) — and whenever it returns
`None`, the calling 8bitify command sends exactly the single
member-failure message and aborts with zero executor submissions.
-/
theorem c3_fetch_member_thm :
    fetch_member FetchRaw.notFoundExc = none ∧
    fetch_member FetchRaw.httpExc = none ∧
    (∀ m, fetch_member (FetchRaw.member m) = some m) ∧
    (∀ (nfkd : Nat → List Nat) (r : FetchRaw), fetch_member r = none →
      eightbit_command nfkd r = [Ev.send UserMsg.memberFail] ∧
      send_count (eightbit_command nfkd r) = 1 ∧
      offload_count (eightbit_command nfkd r) = 0) := by
  refine ⟨rfl, rfl, fun m => rfl, ?_⟩
  intro nfkd r h
  simp [eightbit_command, h, send_count, offload_count]

/-- C3 witness: the not-found outcome, concretely. -/
theorem c3_witness :
    fetch_member FetchRaw.notFoundExc = none ∧
    eightbit_command nfkd_sample FetchRaw.notFoundExc
      = [Ev.send UserMsg.memberFail] ∧
    offload_count (eightbit_command nfkd_sample FetchRaw.notFoundExc) = 0 :=
  ⟨c3_fetch_member_thm.1,
   (c3_fetch_member_thm.2.2.2 nfkd_sample FetchRaw.notFoundExc
      c3_fetch_member_thm.1).1,
   (c3_fetch_member_thm.2.2.2 nfkd_sample FetchRaw.notFoundExc
      c3_fetch_member_thm.1).2.2⟩

/--
C4: when the lowercased option is absent from the flag mapping, both the
`prideavatar` handler and its URL sub-form send exactly the unknown-flag
message and return without raising and with zero executor submissions —
the abort happens before any offload work starts.
-/
theorem c4_unknown_flag_thm (nfkd : Nat → List Nat)
    (opts : List (List Nat × List Nat)) (r : FetchRaw) (u : UrlOutcome)
    (author_name opt : List Nat) (pixels : Int)
    (h : dict_get opts (py_lower opt) = none) :
    prideavatar nfkd opts r author_name opt pixels
      = ⟨[Ev.send UserMsg.noFlag], none⟩ ∧
    image nfkd opts u author_name opt pixels
      = ⟨[Ev.send UserMsg.noFlag], none⟩ ∧
    offload_count (prideavatar nfkd opts r author_name opt pixels).events
      = 0 ∧
    offload_count (image nfkd opts u author_name opt pixels).events = 0 := by
  refine ⟨?_, ?_, ?_, ?_⟩ <;>
    simp [prideavatar, image, h, offload_count]

/-- C4 witness: the option string "not_a_flag" against the sample mapping,
for both command forms. -/
theorem c4_witness :
    dict_get sample_gender_options (py_lower (str "not_a_flag")) = none ∧
    prideavatar nfkd_sample sample_gender_options FetchRaw.notFoundExc
        (str "Sam") (str "not_a_flag") 64
      = ⟨[Ev.send UserMsg.noFlag], none⟩ ∧
    image nfkd_sample sample_gender_options (UrlOutcome.response 200)
        (str "Sam") (str "not_a_flag") 64
      = ⟨[Ev.send UserMsg.noFlag], none⟩ :=
  ⟨by decide,
   (c4_unknown_flag_thm nfkd_sample sample_gender_options
      FetchRaw.notFoundExc (UrlOutcome.response 200) (str "Sam")
      (str "not_a_flag") 64 (by decide)).1,
   (c4_unknown_flag_thm nfkd_sample sample_gender_options
      FetchRaw.notFoundExc (UrlOutcome.response 200) (str "Sam")
      (str "not_a_flag") 64 (by decide)).2.1⟩

/--
C5: on every path that reaches the offload gateway, the pixels value
actually submitted is `max 0 (min 512 p)` (shown by the exact traces of
both command forms on their success paths); a response outcome never makes
the URL sub-form raise, whatever the numeric input; the `prideavatar`
handler never raises at all; and the clamp sends -10 to 0, 9999 to 512,
and leaves 64 unchanged.
-/
theorem c5_clamp_thm (nfkd : Nat → List Nat)
    (opts : List (List Nat × List Nat)) (r : FetchRaw)
    (author_name opt : List Nat) (p : Int) (flag : List Nat)
    (hflag : dict_get opts (py_lower opt) = some flag) (m : Member)
    (hm : fetch_member r = some m) :
    (prideavatar nfkd opts r author_name opt p).events
      = [Ev.offload (OffloadCall.pride
            (file_safe_name nfkd pride_tag author_name)
            (max 0 (min 512 p)) flag),
         Ev.send (UserMsg.prideEmbed (py_lower opt)
            (file_safe_name nfkd pride_tag author_name))] ∧
    (image nfkd opts (UrlOutcome.response 200) author_name opt p).events
      = [Ev.offload (OffloadCall.pride
            (file_safe_name nfkd pride_tag author_name)
            (max 0 (min 512 p)) flag),
         Ev.send (UserMsg.prideEmbed (py_lower opt)
            (file_safe_name nfkd pride_tag author_name))] ∧
    (∀ q : Int, (prideavatar nfkd opts r author_name opt q).raised
      = none) ∧
    (∀ (q : Int) (status : Nat),
      (image nfkd opts (UrlOutcome.response status) author_name opt
        q).raised = none) ∧
    max 0 (min 512 (-10 : Int)) = 0 ∧
    max 0 (min 512 (9999 : Int)) = 512 ∧
    max 0 (min 512 (64 : Int)) = 64 := by
  refine ⟨?_, ?_, ?_, ?_, by decide, by decide, by decide⟩
  · simp [prideavatar, hflag, hm, send_pride_image]
  · simp [image, hflag, send_pride_image]
  · intro q
    simp only [prideavatar, hflag, hm]
  · intro q status
    by_cases hst : status = 200 <;>
      simp [image, hflag, hst, send_pride_image]

/-- C5 witness: the clamp observed in the submitted executor call for the
out-of-range input 9999, plus the three concrete clamp values. -/
theorem c5_witness :
    (prideavatar nfkd_sample sample_gender_options
        (FetchRaw.member ⟨2, str "Kim"⟩) (str "Kim") (str "lgbt")
        9999).events
      = [Ev.offload (OffloadCall.pride
            (file_safe_name nfkd_sample pride_tag (str "Kim"))
            (max 0 (min 512 (9999 : Int))) (str "lgbt")),
         Ev.send (UserMsg.prideEmbed (py_lower (str "lgbt"))
            (file_safe_name nfkd_sample pride_tag (str "Kim")))] ∧
    max 0 (min 512 (-10 : Int)) = 0 ∧
    max 0 (min 512 (9999 : Int)) = 512 ∧
    max 0 (min 512 (64 : Int)) = 64 :=
  ⟨(c5_clamp_thm nfkd_sample sample_gender_options
      (FetchRaw.member ⟨2, str "Kim"⟩) (str "Kim") (str "lgbt") 9999
      (str "lgbt") (by decide) ⟨2, str "Kim"⟩ rfl).1,
   by decide, by decide, by decide⟩

/--
C7: in the URL sub-form, a connection failure raises the bad-argument
fault naming the connection problem and a malformed URL raises the one
naming the invalid URL, in both cases with zero executor submissions (the
abort precedes any offload work); and the boundary resolution turns each
run into exactly one user-facing message with no remaining fault.
-/
theorem c7_url_fault_thm (nfkd : Nat → List Nat)
    (opts : List (List Nat × List Nat)) (author_name opt : List Nat)
    (pixels : Int) (flag : List Nat)
    (hflag : dict_get opts (py_lower opt) = some flag) :
    image nfkd opts UrlOutcome.connectError author_name opt pixels
      = ⟨[], some BadArg.cannotConnect⟩ ∧
    image nfkd opts UrlOutcome.invalidURL author_name opt pixels
      = ⟨[], some BadArg.invalidURL⟩ ∧
    resolve_at_boundary
        (image nfkd opts UrlOutcome.connectError author_name opt pixels)
      = ([Ev.send (UserMsg.badArgMsg BadArg.cannotConnect)], none) ∧
    resolve_at_boundary
        (image nfkd opts UrlOutcome.invalidURL author_name opt pixels)
      = ([Ev.send (UserMsg.badArgMsg BadArg.invalidURL)], none) ∧
    offload_count
      (image nfkd opts UrlOutcome.connectError author_name opt
        pixels).events = 0 ∧
    offload_count
      (image nfkd opts UrlOutcome.invalidURL author_name opt
        pixels).events = 0 ∧
    send_count (resolve_at_boundary
      (image nfkd opts UrlOutcome.connectError author_name opt
        pixels)).1 = 1 ∧
    send_count (resolve_at_boundary
      (image nfkd opts UrlOutcome.invalidURL author_name opt
        pixels)).1 = 1 := by
  refine ⟨?_, ?_, ?_, ?_, ?_, ?_, ?_, ?_⟩ <;>
    simp [image, hflag, resolve_at_boundary, offload_count, send_count]

/-- C7 witness: both URL faults at the sample mapping and option. -/
theorem c7_witness :
    image nfkd_sample sample_gender_options UrlOutcome.connectError
        (str "Sam") (str "lgbt") 64
      = ⟨[], some BadArg.cannotConnect⟩ ∧
    resolve_at_boundary
        (image nfkd_sample sample_gender_options UrlOutcome.invalidURL
          (str "Sam") (str "lgbt") 64)
      = ([Ev.send (UserMsg.badArgMsg BadArg.invalidURL)], none) :=
  ⟨(c7_url_fault_thm nfkd_sample sample_gender_options (str "Sam")
      (str "lgbt") 64 (str "lgbt") (by decide)).1,
   (c7_url_fault_thm nfkd_sample sample_gender_options (str "Sam")
      (str "lgbt") 64 (str "lgbt") (by decide)).2.2.2.1⟩

/-- `py_lower_char` is idempotent: a lowercased codepoint is no longer an
uppercase ASCII letter. -/
theorem py_lower_char_idem (c : Nat) :
    py_lower_char (py_lower_char c) = py_lower_char c := by
  by_cases h : 65 ≤ c ∧ c ≤ 90
  · have e1 : py_lower_char c = c + 32 := by simp [py_lower_char, h]
    have h2 : ¬(65 ≤ c + 32 ∧ c + 32 ≤ 90) := by omega
    have e2 : py_lower_char (c + 32) = c + 32 := by
      unfold py_lower_char
      exact if_neg h2
    rw [e1, e2]
  · have e1 : py_lower_char c = c := by simp [py_lower_char, h]
    rw [e1, e1]

/-- `py_lower` is idempotent. -/
theorem py_lower_idem (s : List Nat) :
    py_lower (py_lower s) = py_lower s := by
  induction s with
  | nil => rfl
  | cons c t ih =>
      simp only [py_lower, List.map_cons] at ih ⊢
      rw [py_lower_char_idem, ih]

/--
C9: the flag-border command and its URL sub-form behave identically on an
option string and on its lowercased form: the handlers lowercase the
option before the mapping lookup, before the unknown-option decision and
before it is interpolated into the reply, so pre-lowercasing the input
changes nothing.
-/
theorem c9_case_insensitive_thm (nfkd : Nat → List Nat)
    (opts : List (List Nat × List Nat)) (r : FetchRaw) (u : UrlOutcome)
    (author_name opt : List Nat) (pixels : Int) :
    prideavatar nfkd opts r author_name (py_lower opt) pixels
      = prideavatar nfkd opts r author_name opt pixels ∧
    image nfkd opts u author_name (py_lower opt) pixels
      = image nfkd opts u author_name opt pixels := by
  constructor <;>
    simp only [prideavatar, image, py_lower_idem]

/--
C1: the spec states that the original output function is restored
unconditionally on every exit path of the delegated invocation, including
the path where the delegated command yields a captured error text. This
is FALSE of the source: on that path `avatareasterify` delivers the
captured text through the saved reference and `return`s WITHOUT the
reassignment `ctx.send = send_message`, so control leaves the handler with
`ctx.send` still the capturing stand-in. Concrete run: member resolved,
one colour given, delegated invocation returns the error text — the
stand-in was installed, yet the final `ctx.send` is not the original.
-/
theorem c1_counterexample :
    EEv.setSend SendSlot.fake ∈
      (avatareasterify nfkd_sample (FetchRaw.member ⟨1, str "Sam"⟩) [7] []
        (DelegResult.ret (some (EggRet.text (str "No colour"))))).events ∧
    (avatareasterify nfkd_sample (FetchRaw.member ⟨1, str "Sam"⟩) [7] []
      (DelegResult.ret (some (EggRet.text (str "No colour"))))).finalSend
      ≠ SendSlot.real := by
  decide

/--
C1 (amended): the original output function is restored exactly on the
paths where the delegated invocation completes without a captured error
text — `ctx.send` is the original at exit if and only if the member fetch
failed, or no colours were given (the stand-in is never installed), or
the delegated invocation returned a non-text artifact or no value. On the
captured-error-text path and when the invocation faults, the handler
exits with the stand-in still installed.
-/
theorem c1_amended_thm (nfkd : Nat → List Nat) (r : FetchRaw)
    (colours : List Nat) (emits : List (List (List Nat)))
    (dres : DelegResult) :
    (avatareasterify nfkd r colours emits dres).finalSend = SendSlot.real
      ↔ (fetch_member r = none ∨ colours = [] ∨
         (∃ a, dres = DelegResult.ret (some (EggRet.art a))) ∨
         dres = DelegResult.ret none) := by
  cases r with
  | notFoundExc => simp [avatareasterify, fetch_member]
  | httpExc => simp [avatareasterify, fetch_member]
  | member m =>
      cases colours with
      | nil => simp [avatareasterify, fetch_member]
      | cons c0 cs =>
          rcases dres with v | _
          · rcases v with _ | e
            · simp [avatareasterify, fetch_member]
            · rcases e with a | s <;>
                simp [avatareasterify, fetch_member]
          · simp [avatareasterify, fetch_member]

/--
C6: the capturing stand-in returns its first positional argument when one
is given and returns nothing when called without positional arguments; the
delegated sends routed through the stand-in produce zero deliveries on the
real output sink; when a textual value is captured the handler relays it
through the real sink and aborts (no executor submission, no result
embed); and when no value is captured the handler proceeds to its own
success path (restores the sink, offloads the effect, sends the embed) —
both when the delegated invocation returned no value at all and when it
returned its non-text artifact, in which case the egg is the artifact
passed to the executor submission.
-/
theorem c6_bridge_thm :
    (∀ (a : List Nat) (args : List (List Nat)), send (a :: args) = some a) ∧
    send [] = none ∧
    (∀ emits, real_send_count (deleg_sends SendSlot.fake emits) = 0) ∧
    (∀ (nfkd : Nat → List Nat) (r : FetchRaw) (m : Member)
       (colours : List Nat) (emits : List (List (List Nat)))
       (s : List Nat),
      fetch_member r = some m → colours.isEmpty = false →
      (avatareasterify nfkd r colours emits
          (DelegResult.ret (some (EggRet.text s)))).events
        = EEv.setSend SendSlot.fake ::
            (deleg_sends SendSlot.fake emits
              ++ [EEv.realSend (EasterOut.relay s)]) ∧
      easter_offload_count
        (avatareasterify nfkd r colours emits
          (DelegResult.ret (some (EggRet.text s)))).events = 0) ∧
    (∀ (nfkd : Nat → List Nat) (r : FetchRaw) (m : Member)
       (colours : List Nat) (emits : List (List (List Nat))),
      fetch_member r = some m → colours.isEmpty = false →
      (avatareasterify nfkd r colours emits (DelegResult.ret none)).events
        = EEv.setSend SendSlot.fake ::
            (deleg_sends SendSlot.fake emits
              ++ [EEv.setSend SendSlot.real,
                  EEv.offloadEaster
                    (file_safe_name nfkd easterified_tag m.display_name)
                    none,
                  EEv.realSend (EasterOut.finalEmbed
                    (file_safe_name nfkd easterified_tag
                      m.display_name))])) ∧
    (∀ (nfkd : Nat → List Nat) (r : FetchRaw) (m : Member)
       (colours : List Nat) (emits : List (List (List Nat)))
       (a : EggArt),
      fetch_member r = some m → colours.isEmpty = false →
      (avatareasterify nfkd r colours emits
          (DelegResult.ret (some (EggRet.art a)))).events
        = EEv.setSend SendSlot.fake ::
            (deleg_sends SendSlot.fake emits
              ++ [EEv.setSend SendSlot.real,
                  EEv.offloadEaster
                    (file_safe_name nfkd easterified_tag m.display_name)
                    (some a),
                  EEv.realSend (EasterOut.finalEmbed
                    (file_safe_name nfkd easterified_tag
                      m.display_name))])) := by
  refine ⟨fun a args => rfl, rfl, ?_, ?_, ?_, ?_⟩
  · intro emits
    induction emits with
    | nil => rfl
    | cons e t ih =>
        simp only [deleg_sends, real_send_count, List.map_cons,
          List.filter_cons] at ih ⊢
        exact ih
  · intro nfkd r m colours emits s hm hcol
    constructor
    · simp [avatareasterify, hm, hcol]
    · simp [avatareasterify, hm, hcol, easter_offload_count, deleg_sends,
        List.filter_map]
  · intro nfkd r m colours emits hm hcol
    simp [avatareasterify, hm, hcol]
  · intro nfkd r m colours emits a hm hcol
    simp [avatareasterify, hm, hcol]

/-- C6 witness: the stand-in and the three delegated-outcome paths
(captured text, no value carried back, artifact carried back) at concrete
inputs. -/
theorem c6_witness :
    send [str "egg error"] = some (str "egg error") ∧
    send [] = none ∧
    real_send_count (deleg_sends SendSlot.fake [[str "hello"]]) = 0 ∧
    (avatareasterify nfkd_sample (FetchRaw.member ⟨4, str "Eve"⟩) [3]
        [[str "hello"]]
        (DelegResult.ret (some (EggRet.text (str "egg error"))))).events
      = EEv.setSend SendSlot.fake ::
          (deleg_sends SendSlot.fake [[str "hello"]]
            ++ [EEv.realSend (EasterOut.relay (str "egg error"))]) ∧
    (avatareasterify nfkd_sample (FetchRaw.member ⟨4, str "Eve"⟩) [3]
        [[str "hello"]] (DelegResult.ret none)).events
      = EEv.setSend SendSlot.fake ::
          (deleg_sends SendSlot.fake [[str "hello"]]
            ++ [EEv.setSend SendSlot.real,
                EEv.offloadEaster
                  (file_safe_name nfkd_sample easterified_tag (str "Eve"))
                  none,
                EEv.realSend (EasterOut.finalEmbed
                  (file_safe_name nfkd_sample easterified_tag
                    (str "Eve")))]) ∧
    (avatareasterify nfkd_sample (FetchRaw.member ⟨4, str "Eve"⟩) [3]
        [[str "hello"]] (DelegResult.ret (some (EggRet.art ⟨9⟩)))).events
      = EEv.setSend SendSlot.fake ::
          (deleg_sends SendSlot.fake [[str "hello"]]
            ++ [EEv.setSend SendSlot.real,
                EEv.offloadEaster
                  (file_safe_name nfkd_sample easterified_tag (str "Eve"))
                  (some ⟨9⟩),
                EEv.realSend (EasterOut.finalEmbed
                  (file_safe_name nfkd_sample easterified_tag
                    (str "Eve")))]) :=
  ⟨c6_bridge_thm.1 (str "egg error") [], c6_bridge_thm.2.1,
   c6_bridge_thm.2.2.1 [[str "hello"]],
   (c6_bridge_thm.2.2.2.1 nfkd_sample (FetchRaw.member ⟨4, str "Eve"⟩)
      ⟨4, str "Eve"⟩ [3] [[str "hello"]] (str "egg error") rfl rfl).1,
   c6_bridge_thm.2.2.2.2.1 nfkd_sample (FetchRaw.member ⟨4, str "Eve"⟩)
      ⟨4, str "Eve"⟩ [3] [[str "hello"]] rfl rfl,
   c6_bridge_thm.2.2.2.2.2 nfkd_sample (FetchRaw.member ⟨4, str "Eve"⟩)
      ⟨4, str "Eve"⟩ [3] [[str "hello"]] ⟨9⟩ rfl rfl⟩

/--
C10: with an empty colour list the delegation bridge is never engaged:
the trace holds no assignment to `ctx.send` and no delegated-send event
(it is exactly the executor submission with `egg = None` followed by the
result embed), the final `ctx.send` is the original; and in full
generality, any run whose trace contains an assignment to `ctx.send` had
a non-empty colour list.
-/
theorem c10_empty_colours_thm (nfkd : Nat → List Nat) (r : FetchRaw)
    (emits : List (List (List Nat))) (dres : DelegResult) (m : Member)
    (hm : fetch_member r = some m) :
    (avatareasterify nfkd r [] emits dres).events
      = [EEv.offloadEaster
           (file_safe_name nfkd easterified_tag m.display_name) none,
         EEv.realSend (EasterOut.finalEmbed
           (file_safe_name nfkd easterified_tag m.display_name))] ∧
    (avatareasterify nfkd r [] emits dres).finalSend = SendSlot.real ∧
    (∀ s, EEv.setSend s ∉ (avatareasterify nfkd r [] emits dres).events) ∧
    (∀ (nfkd2 : Nat → List Nat) (r2 : FetchRaw) (colours : List Nat)
       (emits2 : List (List (List Nat))) (dres2 : DelegResult)
       (s : SendSlot),
      EEv.setSend s ∈ (avatareasterify nfkd2 r2 colours emits2
        dres2).events → colours ≠ []) := by
  refine ⟨by simp [avatareasterify, hm], by simp [avatareasterify, hm],
    by simp [avatareasterify, hm], ?_⟩
  intro nfkd2 r2 colours emits2 dres2 s h hcol
  subst hcol
  rcases hr : fetch_member r2 with _ | m2 <;>
    simp [avatareasterify, hr] at h

/-- C10 witness: a concrete empty-colour run with the delegated-behaviour
inputs deliberately set to an error, showing they are never consulted. -/
theorem c10_witness :
    (avatareasterify nfkd_sample (FetchRaw.member ⟨5, str "Ada"⟩) []
        [[str "ignored"]] DelegResult.fault).events
      = [EEv.offloadEaster
           (file_safe_name nfkd_sample easterified_tag (str "Ada")) none,
         EEv.realSend (EasterOut.finalEmbed
           (file_safe_name nfkd_sample easterified_tag (str "Ada")))] ∧
    (avatareasterify nfkd_sample (FetchRaw.member ⟨5, str "Ada"⟩) []
        [[str "ignored"]] DelegResult.fault).finalSend = SendSlot.real :=
  ⟨(c10_empty_colours_thm nfkd_sample (FetchRaw.member ⟨5, str "Ada"⟩)
      [[str "ignored"]] DelegResult.fault ⟨5, str "Ada"⟩ rfl).1,
   (c10_empty_colours_thm nfkd_sample (FetchRaw.member ⟨5, str "Ada"⟩)
      [[str "ignored"]] DelegResult.fault ⟨5, str "Ada"⟩ rfl).2.1⟩

end AvatarModify
